import Mathlib

/-
  Shallow embedding of the DataGuard policy-gated negotiation and redaction
  engine. Numbers (JS `number`) are modelled as exact rationals; timestamps
  are milliseconds. The PolicyAgent's mutable `requestHistory` is modelled
  as explicit state passing; the wall clock is an explicit `now` parameter.
-/

namespace DataGuard

/-- The four predicate categories of `NegotiationRequest.predicateType`. -/
inductive PredicateType
  | subscription
  | delivery
  | purchase
  | financial
deriving DecidableEq, Repr

def PredicateType.toStr : PredicateType → String
  | .subscription => "subscription"
  | .delivery => "delivery"
  | .purchase => "purchase"
  | .financial => "financial"

inductive RequesterType
  | aiAgent
  | thirdPartyApp
  | human
deriving DecidableEq, Repr

structure RequestedData where
  maxAge : ℚ
  maxEmails : ℚ
  includeBodies : Bool
  includePersonalInfo : Bool
deriving DecidableEq, Repr

/-- Shape of `NegotiationRequest` from the policy-agent module. -/
structure NegotiationRequest where
  predicateType : PredicateType
  requesterId : String
  requesterType : RequesterType
  requestedData : RequestedData
  timestamp : ℚ
deriving DecidableEq, Repr

structure Pricing where
  subscription : ℚ
  delivery : ℚ
  purchase : ℚ
  financial : ℚ
deriving DecidableEq, Repr

/-- The user `Policy` object (extension types module). -/
structure Policy where
  globalDataSharing : Bool
  allowSubscriptionProof : Bool
  allowDeliveryProof : Bool
  allowPurchaseProof : Bool
  allowFinancialProof : Bool
  redactEmailBodies : Bool
  redactPersonalInfo : Bool
  pricing : Pricing
  maxEmailAge : ℚ
  maxEmailsPerRequest : ℚ
  walletAddress : String
  showSenderInfo : Bool
  showSubjectInfo : Bool
deriving DecidableEq, Repr

structure CounterOffer where
  price : ℚ
  conditions : List String
deriving DecidableEq, Repr

/-- The `adjustedPolicy` subset produced for an accepted negotiation
(`Partial<Policy>` with exactly these four fields in the source). -/
structure AdjustedPolicy where
  maxEmailAge : ℚ
  maxEmailsPerRequest : ℚ
  redactEmailBodies : Bool
  redactPersonalInfo : Bool
deriving DecidableEq, Repr

/-- Shape of `NegotiationResult`; optional fields absent in a given return object are
`none`. -/
structure NegotiationResult where
  accepted : Bool
  finalPrice : Option ℚ
  adjustedPolicy : Option AdjustedPolicy
  reason : Option String
  counterOffer : Option CounterOffer
deriving DecidableEq, Repr

structure PricingStrategy where
  basePrice : ℚ
  demandMultiplier : ℚ
  privacyMultiplier : ℚ
  volumeMultiplier : ℚ
deriving DecidableEq, Repr

/-- Table built by `initializePricingStrategies`: the map is populated for all four types in
the constructor and never mutated afterwards. -/
def pricingStrategies : PredicateType → Option PricingStrategy
  | .subscription => some ⟨0.05, 1, 1, 1⟩
  | .delivery => some ⟨0.10, 1, 1, 1⟩
  | .purchase => some ⟨0.25, 1, 1, 1⟩
  | .financial => some ⟨0.50, 1, 1, 1⟩

/-- The PolicyAgent's mutable state: `requestHistory`, a map from predicate
type to the list of recorded requests of that type. -/
structure AgentState where
  requestHistory : PredicateType → List NegotiationRequest

/-- JS `Math.round`: round half toward positive infinity. -/
def jsRound (q : ℚ) : ℤ := ⌊q + 1 / 2⌋

/-- Rounding `Math.round(x * 1000) / 1000`: round to 3 decimal places. -/
def roundTo3 (q : ℚ) : ℚ := (jsRound (q * 1000) : ℚ) / 1000

/-- Embeds `isPredicateAllowed` (per-category allow flag; the `default` branch of the
source switch is unreachable for the four typed categories). -/
def isPredicateAllowed (predicateType : PredicateType) (policy : Policy) : Bool :=
  match predicateType with
  | .subscription => policy.allowSubscriptionProof
  | .delivery => policy.allowDeliveryProof
  | .purchase => policy.allowPurchaseProof
  | .financial => policy.allowFinancialProof

/-- JS `v || d` on numbers: `d` when `v` is falsy (i.e. zero), else `v`. -/
def jsOrDefault (v d : ℚ) : ℚ := if v = 0 then d else v

/-- Embeds `getBasePrice`: configured per-category price with JS falsy-or fallback to
the built-in defaults. -/
def getBasePrice (predicateType : PredicateType) (policy : Policy) : ℚ :=
  match predicateType with
  | .subscription => jsOrDefault policy.pricing.subscription 0.05
  | .delivery => jsOrDefault policy.pricing.delivery 0.10
  | .purchase => jsOrDefault policy.pricing.purchase 0.25
  | .financial => jsOrDefault policy.pricing.financial 0.50

/-- Embeds `getRecentRequestCount`: same-type requests recorded in the trailing hour. -/
def getRecentRequestCount (state : AgentState) (predicateType : PredicateType)
    (now : ℚ) : ℕ :=
  let recentRequests := state.requestHistory predicateType
  let oneHourAgo := now - 60 * 60 * 1000
  (recentRequests.filter (fun req => decide (oneHourAgo < req.timestamp))).length

/-- Embeds `calculatePrivacyMultiplier`. -/
def calculatePrivacyMultiplier (request : NegotiationRequest) : ℚ :=
  let m0 : ℚ := 1
  let m1 := if request.requestedData.includeBodies then m0 + 0.5 else m0
  let m2 := if request.requestedData.includePersonalInfo then m1 + 0.3 else m1
  m2

/-- Embeds `calculateVolumeMultiplier`. -/
def calculateVolumeMultiplier (request : NegotiationRequest) : ℚ :=
  let baseEmails : ℚ := 10
  let requestedEmails := request.requestedData.maxEmails
  if requestedEmails ≤ baseEmails then 1
  else min (1 + ((requestedEmails - baseEmails) / baseEmails) * 0.2) 2

/-- Embeds `calculateDynamicPrice`. -/
def calculateDynamicPrice (state : AgentState) (now : ℚ)
    (request : NegotiationRequest) (basePrice : ℚ) : ℚ :=
  match pricingStrategies request.predicateType with
  | none => basePrice
  | some _ =>
    let requestCount := getRecentRequestCount state request.predicateType now
    let demandMultiplier := min (1 + (requestCount : ℚ) * 0.1) 2
    let price1 := basePrice * demandMultiplier
    let price2 := price1 * calculatePrivacyMultiplier request
    let price3 := price2 * calculateVolumeMultiplier request
    roundTo3 price3

structure PrivacyCompat where
  compatible : Bool
  reason : Option String
  suggestedConditions : Option (List String)
deriving DecidableEq, Repr

/-- Embeds `checkPrivacyCompatibility`. -/
def checkPrivacyCompatibility (request : NegotiationRequest) (policy : Policy) :
    PrivacyCompat :=
  if request.requestedData.includeBodies && policy.redactEmailBodies then
    ⟨false, some "Email body access requested but policy requires body redaction",
      some ["Accept redacted email bodies only"]⟩
  else if request.requestedData.includePersonalInfo && policy.redactPersonalInfo then
    ⟨false,
      some "Personal information access requested but policy requires personal info redaction",
      some ["Accept redacted personal information only"]⟩
  else
    let conditions1 : List String :=
      if policy.maxEmailAge < request.requestedData.maxAge then
        ["Limit to " ++ toString policy.maxEmailAge ++ " days maximum"]
      else []
    let conditions2 : List String :=
      if policy.maxEmailsPerRequest < request.requestedData.maxEmails then
        ["Limit to " ++ toString policy.maxEmailsPerRequest ++ " emails maximum"]
      else []
    ⟨true, none, some (conditions1 ++ conditions2)⟩

def isHexDigitChar (c : Char) : Bool :=
  (decide ('0' ≤ c) && decide (c ≤ '9')) ||
  (decide ('a' ≤ c) && decide (c ≤ 'f')) ||
  (decide ('A' ≤ c) && decide (c ≤ 'F'))

/-- Embeds `validateWalletAddress`: the regex test for a fixed 40-hex-character
address prefixed `0x` (a 42-character string beginning with `0x` whose
remaining 40 characters are all hexadecimal digits). -/
def validateWalletAddress (address : String) : Bool :=
  address.length == 42 && List.isPrefixOf "0x".data address.data &&
    (address.data.drop 2).all isHexDigitChar

/-- Embeds `createAdjustedPolicy`. -/
def createAdjustedPolicy (request : NegotiationRequest) (policy : Policy) :
    AdjustedPolicy :=
  ⟨min request.requestedData.maxAge policy.maxEmailAge,
   min request.requestedData.maxEmails policy.maxEmailsPerRequest,
   !request.requestedData.includeBodies || policy.redactEmailBodies,
   !request.requestedData.includePersonalInfo || policy.redactPersonalInfo⟩

/-- Embeds `negotiateRequest`: the negotiation coordinator. The method reads the
agent state (for the demand count) but performs no write to it, so the
returned state is the input state on every path. -/
def negotiateRequest (request : NegotiationRequest) (currentPolicy : Policy)
    (state : AgentState) (now : ℚ) : NegotiationResult × AgentState :=
  if !currentPolicy.globalDataSharing then
    (⟨false, none, none, some "Global data sharing is disabled", none⟩, state)
  else if !isPredicateAllowed request.predicateType currentPolicy then
    (⟨false, none, none,
      some ("Access to " ++ request.predicateType.toStr ++ " data is disabled"),
      none⟩, state)
  else
    let basePrice := getBasePrice request.predicateType currentPolicy
    let dynamicPrice := calculateDynamicPrice state now request basePrice
    let privacyCompatible := checkPrivacyCompatibility request currentPolicy
    if !privacyCompatible.compatible then
      (⟨false, none, none, privacyCompatible.reason,
        some ⟨dynamicPrice, privacyCompatible.suggestedConditions.getD []⟩⟩, state)
    else if currentPolicy.walletAddress == "" ||
        !validateWalletAddress currentPolicy.walletAddress then
      (⟨false, none, none, some "Invalid wallet address configuration", none⟩, state)
    else
      (⟨true, some dynamicPrice, some (createAdjustedPolicy request currentPolicy),
        none, none⟩, state)

/-- Embeds `recordRequest`: push the request onto its per-type history, keeping only
the last 100 entries. -/
def recordRequest (state : AgentState) (request : NegotiationRequest) :
    AgentState :=
  let existingRequests := state.requestHistory request.predicateType ++ [request]
  let trimmed :=
    if 100 < existingRequests.length then
      existingRequests.drop (existingRequests.length - 100)
    else existingRequests
  ⟨fun t => if t = request.predicateType then trimmed else state.requestHistory t⟩

/-! Mail service: records, predicate classification, fetch, redaction. -/

/-- A normalized email record (`EmailData`); the `date` is milliseconds. -/
structure EmailData where
  id : String
  subject : String
  sender : String
  date : ℚ
  body : String
  type : String
deriving DecidableEq, Repr

/-- The `EmailPredicate.type` union: subscription, delivery or purchase. -/
inductive EmailPredicateType
  | subscription
  | delivery
  | purchase
deriving DecidableEq, Repr

structure EmailPredicate where
  type : EmailPredicateType
  maxAge : ℚ
  minCount : Option ℕ
  keywords : Option (List String)
deriving DecidableEq, Repr

/-- Substring occurrence on character lists (JS `String.includes`). -/
def containsSub : List Char → List Char → Bool
  | _, [] => true
  | [], _ :: _ => false
  | a :: rest, b :: sub2 =>
    (List.isPrefixOf (b :: sub2) (a :: rest)) || containsSub rest (b :: sub2)

/-- JS `toLowerCase`. -/
def lowerStr (s : String) : String := ⟨s.data.map Char.toLower⟩

def containsSubstring (s sub : String) : Bool := containsSub s.data sub.data

def subscriptionKeywords : List String :=
  ["unsubscribe", "subscription", "newsletter", "digest", "weekly", "monthly"]

/-- Embeds `isNewsletterSender`. -/
def isNewsletterSender (sender : String) : Bool :=
  let newsletterDomains := ["newsletter", "digest", "weekly", "monthly", "updates"]
  let senderLower := lowerStr sender
  newsletterDomains.any (fun domain => containsSubstring senderLower domain)

/-- Embeds `isSubscriptionEmail`. -/
def isSubscriptionEmail (email : EmailData) : Bool :=
  let subjectLower := lowerStr email.subject
  let senderLower := lowerStr email.sender
  email.type == "subscription" ||
    subscriptionKeywords.any (fun keyword =>
      containsSubstring subjectLower keyword ||
        containsSubstring senderLower keyword) ||
    isNewsletterSender email.sender

/-- Embeds `isDeliveryEmail`. -/
def isDeliveryEmail (email : EmailData) : Bool :=
  let deliveryKeywords := ["delivered", "delivery", "shipped", "tracking",
    "package", "parcel"]
  let deliverySenders := ["amazon", "dhl", "ups", "fedex", "usps", "flipkart",
    "myntra"]
  let subjectLower := lowerStr email.subject
  let senderLower := lowerStr email.sender
  email.type == "delivery" ||
    deliveryKeywords.any (fun keyword => containsSubstring subjectLower keyword) ||
    deliverySenders.any (fun sender => containsSubstring senderLower sender)

/-- Embeds `isPurchaseEmail`. -/
def isPurchaseEmail (email : EmailData) : Bool :=
  let purchaseKeywords := ["order", "receipt", "invoice", "payment",
    "purchase", "billing"]
  let subjectLower := lowerStr email.subject
  email.type == "purchase" ||
    purchaseKeywords.any (fun keyword => containsSubstring subjectLower keyword)

/-- The per-record predicate of `filterEmailsByPredicate`: the age filter runs
first and rejects regardless of the category branch. -/
def classifyEmail (predicate : EmailPredicate) (now : ℚ) (email : EmailData) :
    Bool :=
  let cutoffDate := now - predicate.maxAge * (24 * 60 * 60 * 1000)
  if email.date < cutoffDate then false
  else
    match predicate.type with
    | .subscription => isSubscriptionEmail email
    | .delivery => isDeliveryEmail email
    | .purchase => isPurchaseEmail email

/-- Embeds `filterEmailsByPredicate` (mail-service module). -/
def filterEmailsByPredicate (emails : List EmailData)
    (predicate : EmailPredicate) (now : ℚ) : List EmailData :=
  emails.filter (classifyEmail predicate now)

/-- A raw email as delivered by the upstream JSON fetch; fields may be
missing. -/
structure RawEmailData where
  id : Option String
  subject : Option String
  sender : Option String
  date : Option ℚ
  body : Option String
  type : Option String
deriving DecidableEq, Repr

/-- JS `v || d` on optional strings: `d` when the field is missing or empty. -/
def jsOrStr (v : Option String) (d : String) : String :=
  match v with
  | none => d
  | some s => if s = "" then d else s

/-- Embeds `normalizeEmailData`; `genId` supplies the random identifier generated for
records lacking one, and `now` stands for `new Date()` used as date default. -/
def normalizeEmailData (genId : ℕ → String) (now : ℚ)
    (emails : List RawEmailData) : List EmailData :=
  emails.enum.map (fun p =>
    { id := jsOrStr p.2.id (genId p.1)
      subject := jsOrStr p.2.subject "No Subject"
      sender := jsOrStr p.2.sender "Unknown Sender"
      date := p.2.date.getD now
      body := p.2.body.getD ""
      type := jsOrStr p.2.type "general" })

/-- Embeds `MailService.fallbackData`: initialized to the empty array and never
written. -/
def fallbackData : List EmailData := []

/-- Embeds `MailService.getEmails`: the upstream fetch outcome (HTTP + JSON parse) is
the `Except` argument; the catch branch returns the fallback data. -/
def getEmails (fetchResult : Except String (List RawEmailData))
    (genId : ℕ → String) (now : ℚ) : List EmailData :=
  match fetchResult with
  | .ok emails => normalizeEmailData genId now emails
  | .error _ => fallbackData

/-- Embeds `applyRedaction` (background module): field-level redaction of body,
subject and sender. -/
def applyRedaction (emailData : List EmailData) (policy : Policy) :
    List EmailData :=
  emailData.map (fun email =>
    { email with
      body := if policy.redactEmailBodies then "[REDACTED]" else email.body
      subject := if policy.showSubjectInfo then email.subject else "[REDACTED]"
      sender := if policy.showSenderInfo then email.sender else "[REDACTED]" })

/-! Concrete fixtures used to instantiate the theorems below. -/

/-- The fresh agent state: no recorded requests. -/
def st0 : AgentState := ⟨fun _ => []⟩

def wallet1 : String := "0xaaaaaaaaaaaaaaaaaaaaaaaaaaaaaaaaaaaaaaaa"

/-- A permissive policy with a valid wallet, no redaction, default prices. -/
def pol1 : Policy :=
  { globalDataSharing := true, allowSubscriptionProof := true,
    allowDeliveryProof := true, allowPurchaseProof := true,
    allowFinancialProof := false, redactEmailBodies := false,
    redactPersonalInfo := false, pricing := ⟨0.05, 0.10, 0.25, 0.50⟩,
    maxEmailAge := 90, maxEmailsPerRequest := 50, walletAddress := wallet1,
    showSenderInfo := true, showSubjectInfo := true }

/-- A delivery request for at most 10 emails, no bodies, no personal info. -/
def req1 : NegotiationRequest :=
  { predicateType := .delivery, requesterId := "agent-1",
    requesterType := .aiAgent, requestedData := ⟨30, 10, false, false⟩,
    timestamp := 0 }

/-- Variant of `pol1` with mandatory body redaction (spec Scenario B policy). -/
def polB : Policy := { pol1 with redactEmailBodies := true }

/-- Variant of `req1` asking for email bodies. -/
def reqB : NegotiationRequest :=
  { req1 with requestedData := ⟨30, 10, true, false⟩ }

/-- Variant of `pol1` with a configured delivery base price of zero. -/
def polZero : Policy := { pol1 with pricing := ⟨0.05, 0, 0.25, 0.50⟩ }

/-- Variant of `pol1` with a malformed wallet address. -/
def polBadWallet : Policy := { pol1 with walletAddress := "0x123" }

/-! Helper lemmas. -/

lemma checkPrivacy_compatible_eq (request : NegotiationRequest)
    (policy : Policy) :
    (checkPrivacyCompatibility request policy).compatible =
      (!(request.requestedData.includeBodies && policy.redactEmailBodies) &&
       !(request.requestedData.includePersonalInfo && policy.redactPersonalInfo)) := by
  unfold checkPrivacyCompatibility
  cases hb : request.requestedData.includeBodies && policy.redactEmailBodies <;>
    cases hp : request.requestedData.includePersonalInfo &&
      policy.redactPersonalInfo <;>
    simp [hb, hp]

lemma calculatePrivacyMultiplier_eq (request : NegotiationRequest) :
    calculatePrivacyMultiplier request =
      1 + (if request.requestedData.includeBodies then (0.5 : ℚ) else 0) +
        (if request.requestedData.includePersonalInfo then (0.3 : ℚ) else 0) := by
  unfold calculatePrivacyMultiplier
  cases request.requestedData.includeBodies <;>
    cases request.requestedData.includePersonalInfo <;> norm_num

lemma calculateVolumeMultiplier_eq (request : NegotiationRequest) :
    calculateVolumeMultiplier request =
      (if request.requestedData.maxEmails ≤ 10 then (1 : ℚ)
       else min (1 + ((request.requestedData.maxEmails - 10) / 10) * 0.2) 2) := by
  unfold calculateVolumeMultiplier
  rfl

lemma calculateDynamicPrice_eq (state : AgentState) (now : ℚ)
    (request : NegotiationRequest) (basePrice : ℚ) :
    calculateDynamicPrice state now request basePrice =
      roundTo3 (basePrice *
        min (1 + (getRecentRequestCount state request.predicateType now : ℚ) * 0.1) 2 *
        calculatePrivacyMultiplier request * calculateVolumeMultiplier request) := by
  obtain ⟨pt, rid, rty, rd, ts⟩ := request
  cases pt <;> simp [calculateDynamicPrice, pricingStrategies]

lemma validateWalletAddress_empty : validateWalletAddress "" = false := by
  decide

/-- When the wallet is valid, the deny condition of the wallet check is
false. -/
lemma walletCheck_false (policy : Policy)
    (hWallet : validateWalletAddress policy.walletAddress = true) :
    (policy.walletAddress == "" ||
      !validateWalletAddress policy.walletAddress) = false := by
  have hne : policy.walletAddress ≠ "" := by
    intro h
    rw [h, validateWalletAddress_empty] at hWallet
    exact Bool.false_ne_true hWallet
  simp [hWallet, hne]

/-! Claim theorems. -/

/-- Claim C1: for every negotiation request whose category is allowed, whose
privacy flags are compatible with the policy, and whose wallet address is
valid, the accepted final price is `round(basePrice * demandMultiplier *
privacyMultiplier * volumeMultiplier, 3)`, with `demandMultiplier =
min(1 + recentCount * 0.1, 2)` over the trailing hour, `privacyMultiplier =
1 + 0.5⬝includeBodies + 0.3⬝includePersonalInfo`, and `volumeMultiplier = 1`
for at most 10 emails and `min(1 + ((maxEmails - 10)/10) * 0.2, 2)`
otherwise. -/
theorem accepted_price_eq_rounded_product
    (request : NegotiationRequest) (policy : Policy) (state : AgentState)
    (now : ℚ)
    (hGlobal : policy.globalDataSharing = true)
    (hAllowed : isPredicateAllowed request.predicateType policy = true)
    (hBodies : ¬(request.requestedData.includeBodies = true ∧
      policy.redactEmailBodies = true))
    (hPersonal : ¬(request.requestedData.includePersonalInfo = true ∧
      policy.redactPersonalInfo = true))
    (hWallet : validateWalletAddress policy.walletAddress = true) :
    (negotiateRequest request policy state now).1.accepted = true ∧
    (negotiateRequest request policy state now).1.finalPrice =
      some (roundTo3 (getBasePrice request.predicateType policy *
        min (1 + (getRecentRequestCount state request.predicateType now : ℚ) * 0.1) 2 *
        (1 + (if request.requestedData.includeBodies then (0.5 : ℚ) else 0) +
          (if request.requestedData.includePersonalInfo then (0.3 : ℚ) else 0)) *
        (if request.requestedData.maxEmails ≤ 10 then (1 : ℚ)
         else min (1 + ((request.requestedData.maxEmails - 10) / 10) * 0.2) 2))) := by
  have h1 : (request.requestedData.includeBodies && policy.redactEmailBodies) = false := by
    cases hb : request.requestedData.includeBodies <;>
      cases hr : policy.redactEmailBodies <;> simp_all
  have h2 : (request.requestedData.includePersonalInfo &&
      policy.redactPersonalInfo) = false := by
    cases hb : request.requestedData.includePersonalInfo <;>
      cases hr : policy.redactPersonalInfo <;> simp_all
  have hpc : (checkPrivacyCompatibility request policy).compatible = true := by
    rw [checkPrivacy_compatible_eq, h1, h2]; rfl
  have hwc := walletCheck_false policy hWallet
  rw [← calculatePrivacyMultiplier_eq, ← calculateVolumeMultiplier_eq,
    ← calculateDynamicPrice_eq]
  simp only [negotiateRequest, hGlobal, hAllowed, hpc, Bool.not_true,
    Bool.false_eq_true, if_false]
  rw [if_neg]
  · exact ⟨rfl, rfl⟩
  · simp [hwc]

/-- Witness for C1: the concrete delivery request `req1` against `pol1` is
accepted at the rounded product price 0.10. -/
theorem accepted_price_eq_rounded_product_witness :
    pol1.globalDataSharing = true ∧
    validateWalletAddress pol1.walletAddress = true ∧
    (negotiateRequest req1 pol1 st0 0).1.accepted = true ∧
    (negotiateRequest req1 pol1 st0 0).1.finalPrice = some 0.1 := by
  have h := accepted_price_eq_rounded_product req1 pol1 st0 0 rfl rfl
    (by decide) (by decide) (by decide)
  refine ⟨rfl, by decide, h.1, ?_⟩
  rw [h.2]
  norm_num [req1, pol1, st0, getBasePrice, jsOrDefault, getRecentRequestCount,
    roundTo3, jsRound, min_def]

/-! Branch characterizations of `negotiateRequest`. -/

lemma negotiate_global_disabled (request : NegotiationRequest) (policy : Policy)
    (state : AgentState) (now : ℚ) (hG : policy.globalDataSharing = false) :
    negotiateRequest request policy state now =
      (⟨false, none, none, some "Global data sharing is disabled", none⟩, state) := by
  simp [negotiateRequest, hG]

lemma negotiate_category_disabled (request : NegotiationRequest)
    (policy : Policy) (state : AgentState) (now : ℚ)
    (hG : policy.globalDataSharing = true)
    (hA : isPredicateAllowed request.predicateType policy = false) :
    negotiateRequest request policy state now =
      (⟨false, none, none,
        some ("Access to " ++ request.predicateType.toStr ++ " data is disabled"),
        none⟩, state) := by
  simp [negotiateRequest, hG, hA]

lemma negotiate_privacy_denied (request : NegotiationRequest) (policy : Policy)
    (state : AgentState) (now : ℚ)
    (hG : policy.globalDataSharing = true)
    (hA : isPredicateAllowed request.predicateType policy = true)
    (hcp : (checkPrivacyCompatibility request policy).compatible = false) :
    negotiateRequest request policy state now =
      (⟨false, none, none, (checkPrivacyCompatibility request policy).reason,
        some ⟨calculateDynamicPrice state now request
            (getBasePrice request.predicateType policy),
          ((checkPrivacyCompatibility request policy).suggestedConditions).getD []⟩⟩,
        state) := by
  simp [negotiateRequest, hG, hA, hcp]

lemma negotiate_wallet_invalid (request : NegotiationRequest) (policy : Policy)
    (state : AgentState) (now : ℚ)
    (hG : policy.globalDataSharing = true)
    (hA : isPredicateAllowed request.predicateType policy = true)
    (hcp : (checkPrivacyCompatibility request policy).compatible = true)
    (hw : (policy.walletAddress == "" ||
      !validateWalletAddress policy.walletAddress) = true) :
    negotiateRequest request policy state now =
      (⟨false, none, none, some "Invalid wallet address configuration", none⟩,
        state) := by
  simp only [negotiateRequest, hG, hA, hcp, Bool.not_true, Bool.not_false,
    Bool.false_eq_true, if_false, if_true]
  rw [if_pos]
  simp [hw]

lemma negotiate_accepted_eq (request : NegotiationRequest) (policy : Policy)
    (state : AgentState) (now : ℚ)
    (hG : policy.globalDataSharing = true)
    (hA : isPredicateAllowed request.predicateType policy = true)
    (hcp : (checkPrivacyCompatibility request policy).compatible = true)
    (hw : (policy.walletAddress == "" ||
      !validateWalletAddress policy.walletAddress) = false) :
    negotiateRequest request policy state now =
      (⟨true,
        some (calculateDynamicPrice state now request
          (getBasePrice request.predicateType policy)),
        some (createAdjustedPolicy request policy), none, none⟩, state) := by
  simp only [negotiateRequest, hG, hA, hcp, Bool.not_true, Bool.not_false,
    Bool.false_eq_true, if_false, if_true]
  rw [if_neg]
  simp [hw]

/-- The adjusted policy of the fixture negotiation `req1` against `pol1`. -/
def adj1 : AdjustedPolicy := ⟨30, 10, true, true⟩

/-- Claim C2: for every accepted negotiation, the adjusted effective policy is
never looser than the base policy: the adjusted max age and max count are at
most the policy ceilings, and each adjusted redaction flag is true whenever
the base policy's corresponding flag is true. -/
theorem adjusted_policy_never_looser
    (request : NegotiationRequest) (policy : Policy) (state : AgentState)
    (now : ℚ) (adjusted : AdjustedPolicy)
    (hAccepted : (negotiateRequest request policy state now).1.adjustedPolicy =
      some adjusted) :
    adjusted.maxEmailAge ≤ policy.maxEmailAge ∧
    adjusted.maxEmailsPerRequest ≤ policy.maxEmailsPerRequest ∧
    (policy.redactEmailBodies = true → adjusted.redactEmailBodies = true) ∧
    (policy.redactPersonalInfo = true → adjusted.redactPersonalInfo = true) := by
  have hadj : adjusted = createAdjustedPolicy request policy := by
    cases hG : policy.globalDataSharing with
    | false =>
      rw [negotiate_global_disabled request policy state now hG] at hAccepted
      simp at hAccepted
    | true =>
      cases hA : isPredicateAllowed request.predicateType policy with
      | false =>
        rw [negotiate_category_disabled request policy state now hG hA] at hAccepted
        simp at hAccepted
      | true =>
        cases hcp : (checkPrivacyCompatibility request policy).compatible with
        | false =>
          rw [negotiate_privacy_denied request policy state now hG hA hcp]
            at hAccepted
          simp at hAccepted
        | true =>
          cases hw : (policy.walletAddress == "" ||
              !validateWalletAddress policy.walletAddress) with
          | true =>
            rw [negotiate_wallet_invalid request policy state now hG hA hcp hw]
              at hAccepted
            simp at hAccepted
          | false =>
            rw [negotiate_accepted_eq request policy state now hG hA hcp hw]
              at hAccepted
            simpa using hAccepted.symm
  rw [hadj]
  unfold createAdjustedPolicy
  refine ⟨min_le_right _ _, min_le_right _ _, ?_, ?_⟩ <;>
    (intro h; simp [h])

/-- Witness for C2: the fixture negotiation is accepted with adjusted policy
`adj1`, which satisfies all four tightening conditions against `pol1`. -/
theorem adjusted_policy_never_looser_witness :
    (negotiateRequest req1 pol1 st0 0).1.adjustedPolicy = some adj1 ∧
    (adj1.maxEmailAge ≤ pol1.maxEmailAge ∧
     adj1.maxEmailsPerRequest ≤ pol1.maxEmailsPerRequest ∧
     (pol1.redactEmailBodies = true → adj1.redactEmailBodies = true) ∧
     (pol1.redactPersonalInfo = true → adj1.redactPersonalInfo = true)) := by
  have hres : negotiateRequest req1 pol1 st0 0 =
      (⟨true, some (calculateDynamicPrice st0 0 req1
          (getBasePrice req1.predicateType pol1)),
        some (createAdjustedPolicy req1 pol1), none, none⟩, st0) := by
    refine negotiate_accepted_eq req1 pol1 st0 0 rfl rfl (by decide) ?_
    exact walletCheck_false pol1 (by decide)
  have hAcc : (negotiateRequest req1 pol1 st0 0).1.adjustedPolicy = some adj1 := by
    rw [hres]
    norm_num [createAdjustedPolicy, req1, pol1, adj1, min_def]
  exact ⟨hAcc, adjusted_policy_never_looser req1 pol1 st0 0 adj1 hAcc⟩

/-- Claim C3: with global sharing on and the category allowed, a request
whose privacy flags collide with the policy's redaction flags is denied with
a counter-offer whose price is exactly the computed quote and whose
conditions propose redacted-only access. -/
theorem privacy_denial_counter_offer
    (request : NegotiationRequest) (policy : Policy) (state : AgentState)
    (now : ℚ)
    (hGlobal : policy.globalDataSharing = true)
    (hAllowed : isPredicateAllowed request.predicateType policy = true)
    (hPriv : (request.requestedData.includeBodies = true ∧
        policy.redactEmailBodies = true) ∨
      (request.requestedData.includePersonalInfo = true ∧
        policy.redactPersonalInfo = true)) :
    (negotiateRequest request policy state now).1.accepted = false ∧
    (negotiateRequest request policy state now).1.counterOffer =
      some ⟨calculateDynamicPrice state now request
          (getBasePrice request.predicateType policy),
        if request.requestedData.includeBodies && policy.redactEmailBodies then
          ["Accept redacted email bodies only"]
        else ["Accept redacted personal information only"]⟩ := by
  cases hb : (request.requestedData.includeBodies && policy.redactEmailBodies) with
  | true =>
    have hcp : checkPrivacyCompatibility request policy =
        ⟨false,
          some "Email body access requested but policy requires body redaction",
          some ["Accept redacted email bodies only"]⟩ := by
      unfold checkPrivacyCompatibility
      simp [hb]
    have h := negotiate_privacy_denied request policy state now hGlobal hAllowed
      (by rw [hcp])
    rw [h, hcp]
    simp
  | false =>
    have hpi : (request.requestedData.includePersonalInfo &&
        policy.redactPersonalInfo) = true := by
      rcases hPriv with ⟨h1, h2⟩ | ⟨h1, h2⟩
      · rw [h1, h2] at hb
        cases hb
      · rw [h1, h2]
        rfl
    have hcp : checkPrivacyCompatibility request policy =
        ⟨false,
          some "Personal information access requested but policy requires personal info redaction",
          some ["Accept redacted personal information only"]⟩ := by
      unfold checkPrivacyCompatibility
      simp [hb, hpi]
    have h := negotiate_privacy_denied request policy state now hGlobal hAllowed
      (by rw [hcp])
    rw [h, hcp]
    simp [hb]

/-- Witness for C3 (spec Scenario B): `reqB` wants bodies while `polB`
mandates body redaction; the denial's counter-offer price is 0.150 for base
price 0.10 with no other multipliers, and its condition proposes redacted
bodies only. -/
theorem privacy_denial_counter_offer_witness :
    polB.globalDataSharing = true ∧
    isPredicateAllowed reqB.predicateType polB = true ∧
    reqB.requestedData.includeBodies = true ∧
    polB.redactEmailBodies = true ∧
    (negotiateRequest reqB polB st0 0).1.accepted = false ∧
    (negotiateRequest reqB polB st0 0).1.counterOffer =
      some ⟨0.15, ["Accept redacted email bodies only"]⟩ := by
  have h := privacy_denial_counter_offer reqB polB st0 0 rfl rfl
    (Or.inl ⟨by decide, by decide⟩)
  refine ⟨rfl, rfl, by decide, by decide, h.1, ?_⟩
  rw [h.2]
  norm_num [reqB, req1, polB, pol1, st0, getBasePrice, jsOrDefault,
    calculateDynamicPrice, pricingStrategies, getRecentRequestCount,
    calculatePrivacyMultiplier, calculateVolumeMultiplier, roundTo3, jsRound,
    min_def]

/-- Claim C10: a result carries a counter-offer exactly when it is a denial
caused by a privacy incompatibility (bodies or personal info requested
against the corresponding redaction flag) after the global and category
gates; other denials carry no counter-offer, and accepted results carry
neither a denial reason nor a counter-offer. -/
theorem counter_offer_iff_privacy_denial
    (request : NegotiationRequest) (policy : Policy) (state : AgentState)
    (now : ℚ) :
    ((negotiateRequest request policy state now).1.counterOffer.isSome = true ↔
      (policy.globalDataSharing = true ∧
        isPredicateAllowed request.predicateType policy = true ∧
        ((request.requestedData.includeBodies = true ∧
            policy.redactEmailBodies = true) ∨
         (request.requestedData.includePersonalInfo = true ∧
            policy.redactPersonalInfo = true)))) ∧
    ((negotiateRequest request policy state now).1.accepted = true →
      (negotiateRequest request policy state now).1.reason = none ∧
      (negotiateRequest request policy state now).1.counterOffer = none) := by
  have hcpeq := checkPrivacy_compatible_eq request policy
  cases hG : policy.globalDataSharing with
  | false =>
    rw [negotiate_global_disabled request policy state now hG]
    simp
  | true =>
    cases hA : isPredicateAllowed request.predicateType policy with
    | false =>
      rw [negotiate_category_disabled request policy state now hG hA]
      simp
    | true =>
      cases hb : (request.requestedData.includeBodies &&
          policy.redactEmailBodies) with
      | true =>
        have hcp : (checkPrivacyCompatibility request policy).compatible = false := by
          rw [hcpeq, hb]
          rfl
        rw [negotiate_privacy_denied request policy state now hG hA hcp]
        simp only [Bool.and_eq_true] at hb
        simp [hb.1, hb.2]
      | false =>
        cases hp : (request.requestedData.includePersonalInfo &&
            policy.redactPersonalInfo) with
        | true =>
          have hcp : (checkPrivacyCompatibility request policy).compatible = false := by
            rw [hcpeq, hb, hp]
            rfl
          rw [negotiate_privacy_denied request policy state now hG hA hcp]
          simp only [Bool.and_eq_true] at hp
          simp [hp.1, hp.2]
        | false =>
          have hcp : (checkPrivacyCompatibility request policy).compatible = true := by
            rw [hcpeq, hb, hp]
            rfl
          have hbprop : ¬(request.requestedData.includeBodies = true ∧
              policy.redactEmailBodies = true) := by
            intro hx
            rw [hx.1, hx.2] at hb
            cases hb
          have hpprop : ¬(request.requestedData.includePersonalInfo = true ∧
              policy.redactPersonalInfo = true) := by
            intro hx
            rw [hx.1, hx.2] at hp
            cases hp
          cases hw : (policy.walletAddress == "" ||
              !validateWalletAddress policy.walletAddress) with
          | true =>
            rw [negotiate_wallet_invalid request policy state now hG hA hcp hw]
            simp [hbprop, hpprop]
          | false =>
            rw [negotiate_accepted_eq request policy state now hG hA hcp hw]
            simp [hbprop, hpprop]

/-- Witness for C10: the theorem instantiated at the accepted fixture run. -/
theorem counter_offer_iff_privacy_denial_witness :
    ((negotiateRequest req1 pol1 st0 0).1.counterOffer.isSome = true ↔
      (pol1.globalDataSharing = true ∧
        isPredicateAllowed req1.predicateType pol1 = true ∧
        ((req1.requestedData.includeBodies = true ∧
            pol1.redactEmailBodies = true) ∨
         (req1.requestedData.includePersonalInfo = true ∧
            pol1.redactPersonalInfo = true)))) ∧
    ((negotiateRequest req1 pol1 st0 0).1.accepted = true →
      (negotiateRequest req1 pol1 st0 0).1.reason = none ∧
      (negotiateRequest req1 pol1 st0 0).1.counterOffer = none) :=
  counter_offer_iff_privacy_denial req1 pol1 st0 0

/-- Counterexample to claim C5: the fixture negotiation returns with the
request history untouched — the delivery history stays empty instead of
gaining one appended entry. -/
theorem negotiate_appends_nothing_counterexample :
    ((negotiateRequest req1 pol1 st0 0).2.requestHistory .delivery).length = 0 ∧
    ((negotiateRequest req1 pol1 st0 0).2.requestHistory .delivery).length ≠
      (st0.requestHistory .delivery).length + 1 := by
  have hres := negotiate_accepted_eq req1 pol1 st0 0 rfl rfl (by decide)
    (walletCheck_false pol1 (by decide))
  rw [hres]
  exact ⟨rfl, by decide⟩

/-- Claim C5 (amended): `negotiateRequest` never appends to the request
history — it returns its input state unchanged on every path; recording is
the separate `recordRequest` operation (invoked by no caller in the
repository), which appends exactly one entry per call, with FIFO eviction
beyond 100 entries per category. -/
theorem negotiate_leaves_history_unchanged
    (request : NegotiationRequest) (policy : Policy) (state : AgentState)
    (now : ℚ) :
    (negotiateRequest request policy state now).2 = state ∧
    ((state.requestHistory request.predicateType).length < 100 →
      (recordRequest state request).requestHistory request.predicateType =
        state.requestHistory request.predicateType ++ [request]) := by
  constructor
  · simp only [negotiateRequest]
    split_ifs <;> rfl
  · intro hlen
    have hcap : ¬(100 <
        (state.requestHistory request.predicateType ++ [request]).length) := by
      rw [List.length_append]
      simp only [List.length_singleton]
      omega
    simp [recordRequest, hcap]
    intro h
    exact absurd h (by omega)

/-- Witness for C5 (amended): on the empty-history fixture, negotiation
returns the state unchanged and an explicit `recordRequest` call appends the
single entry. -/
theorem negotiate_leaves_history_unchanged_witness :
    (st0.requestHistory req1.predicateType).length < 100 ∧
    (negotiateRequest req1 pol1 st0 0).2 = st0 ∧
    (recordRequest st0 req1).requestHistory req1.predicateType = [req1] := by
  have h := negotiate_leaves_history_unchanged req1 pol1 st0 0
  refine ⟨by decide, h.1, ?_⟩
  rw [h.2 (by decide)]
  rfl

/-- Counterexample to claim C8: the denial reason for a malformed wallet is
the string "Invalid wallet address configuration", not the claimed
"invalid payment configuration". -/
theorem wallet_denial_reason_counterexample :
    (negotiateRequest req1 polBadWallet st0 0).1.reason =
      some "Invalid wallet address configuration" ∧
    (negotiateRequest req1 polBadWallet st0 0).1.reason ≠
      some "invalid payment configuration" := by
  have hres := negotiate_wallet_invalid req1 polBadWallet st0 0 rfl rfl
    (by decide) (by decide)
  rw [hres]
  exact ⟨rfl, by decide⟩

/-- Claim C8 (amended): if the wallet address is empty or fails the
`0x`+40-hex format check, negotiation (past the global, category and privacy
checks) denies with reason "Invalid wallet address configuration" and no
counter-offer. -/
theorem invalid_wallet_denial
    (request : NegotiationRequest) (policy : Policy) (state : AgentState)
    (now : ℚ)
    (hGlobal : policy.globalDataSharing = true)
    (hAllowed : isPredicateAllowed request.predicateType policy = true)
    (hBodies : ¬(request.requestedData.includeBodies = true ∧
      policy.redactEmailBodies = true))
    (hPersonal : ¬(request.requestedData.includePersonalInfo = true ∧
      policy.redactPersonalInfo = true))
    (hWallet : policy.walletAddress = "" ∨
      validateWalletAddress policy.walletAddress = false) :
    (negotiateRequest request policy state now).1.accepted = false ∧
    (negotiateRequest request policy state now).1.reason =
      some "Invalid wallet address configuration" ∧
    (negotiateRequest request policy state now).1.counterOffer = none := by
  have h1 : (request.requestedData.includeBodies &&
      policy.redactEmailBodies) = false := by
    cases hx : request.requestedData.includeBodies <;>
      cases hy : policy.redactEmailBodies <;> simp_all
  have h2 : (request.requestedData.includePersonalInfo &&
      policy.redactPersonalInfo) = false := by
    cases hx : request.requestedData.includePersonalInfo <;>
      cases hy : policy.redactPersonalInfo <;> simp_all
  have hcp : (checkPrivacyCompatibility request policy).compatible = true := by
    rw [checkPrivacy_compatible_eq, h1, h2]
    rfl
  have hw : (policy.walletAddress == "" ||
      !validateWalletAddress policy.walletAddress) = true := by
    rcases hWallet with h | h
    · simp [h]
    · simp [h]
  rw [negotiate_wallet_invalid request policy state now hGlobal hAllowed hcp hw]
  exact ⟨rfl, rfl, rfl⟩

/-- Witness for C8 (amended): the malformed wallet "0x123" is denied with the
actual reason string. -/
theorem invalid_wallet_denial_witness :
    validateWalletAddress polBadWallet.walletAddress = false ∧
    (negotiateRequest req1 polBadWallet st0 0).1.accepted = false ∧
    (negotiateRequest req1 polBadWallet st0 0).1.reason =
      some "Invalid wallet address configuration" ∧
    (negotiateRequest req1 polBadWallet st0 0).1.counterOffer = none :=
  ⟨by decide, invalid_wallet_denial req1 polBadWallet st0 0 rfl rfl
    (by decide) (by decide) (Or.inr (by decide))⟩

/-- The configured price of a category in the policy's pricing table. -/
def categoryPrice : PredicateType → Policy → ℚ
  | .subscription, policy => policy.pricing.subscription
  | .delivery, policy => policy.pricing.delivery
  | .purchase, policy => policy.pricing.purchase
  | .financial, policy => policy.pricing.financial

/-- The built-in default base price per category. -/
def defaultBasePrice : PredicateType → ℚ
  | .subscription => 0.05
  | .delivery => 0.10
  | .purchase => 0.25
  | .financial => 0.50

/-- Counterexample to claim C4: with the delivery base price configured to
zero, negotiation does not deny for unset pricing — it accepts and silently
quotes the substituted default 0.10. -/
theorem zero_base_price_accepted_counterexample :
    polZero.pricing.delivery = 0 ∧
    (negotiateRequest req1 polZero st0 0).1.accepted = true ∧
    (negotiateRequest req1 polZero st0 0).1.finalPrice = some 0.1 ∧
    (negotiateRequest req1 polZero st0 0).1.reason = none := by
  have hres := negotiate_accepted_eq req1 polZero st0 0 rfl rfl (by decide)
    (walletCheck_false polZero (by decide))
  rw [hres]
  refine ⟨rfl, rfl, ?_, rfl⟩
  norm_num [calculateDynamicPrice, pricingStrategies, req1, polZero, pol1,
    getBasePrice, jsOrDefault, getRecentRequestCount, st0,
    calculatePrivacyMultiplier, calculateVolumeMultiplier, roundTo3, jsRound,
    min_def]

/-- Claim C4 (amended): a configured base price of zero is silently replaced
by the category default (0.05 / 0.10 / 0.25 / 0.50) via the JS falsy-or and
negotiation proceeds with it; a nonzero (including negative) configured price
is used as-is. Negotiation never denies over the configured base price. -/
theorem zero_base_price_uses_default (policy : Policy) (t : PredicateType) :
    (categoryPrice t policy = 0 → getBasePrice t policy = defaultBasePrice t) ∧
    (categoryPrice t policy ≠ 0 →
      getBasePrice t policy = categoryPrice t policy) := by
  cases t <;> constructor <;> intro h <;>
    simp only [categoryPrice] at h <;>
    simp [getBasePrice, jsOrDefault, defaultBasePrice, categoryPrice, h]

/-- Witness for C4 (amended): `polZero` configures delivery price zero and
`getBasePrice` yields the default 0.10. -/
theorem zero_base_price_uses_default_witness :
    categoryPrice .delivery polZero = 0 ∧
    getBasePrice .delivery polZero = 0.10 :=
  ⟨rfl, (zero_base_price_uses_default polZero .delivery).1 rfl⟩

/-- A constant identifier generator for the fetch fixtures. -/
def genId0 : ℕ → String := fun _ => "generated"

/-- Counterexample to claim C6: a failed fetch yields exactly the same result
as a successful fetch of zero records — the empty record set — so the caller
cannot distinguish the failure. -/
theorem fetch_error_indistinguishable_counterexample :
    getEmails (Except.error "HTTP error! status: 500") genId0 0 =
      getEmails (Except.ok []) genId0 0 ∧
    getEmails (Except.error "HTTP error! status: 500") genId0 0 = [] :=
  ⟨rfl, rfl⟩

/-- Claim C6 (amended): an upstream fetch failure does not propagate —
`getEmails` swallows every fetch error and returns the fallback data (the
empty list), indistinguishable from a successful fetch of zero records. -/
theorem fetch_error_swallowed (e : String) (genId : ℕ → String) (now : ℚ) :
    getEmails (Except.error e) genId now = fallbackData ∧
    getEmails (Except.error e) genId now = getEmails (Except.ok []) genId now :=
  ⟨rfl, rfl⟩

/-- Claim C7: classification rejects any record older than `maxAge` days
before now, regardless of keyword, sender, or pre-tagged type match. -/
theorem classify_age_filter_dominates
    (predicate : EmailPredicate) (now : ℚ) (email : EmailData)
    (hOld : email.date < now - predicate.maxAge * (24 * 60 * 60 * 1000)) :
    classifyEmail predicate now email = false := by
  simp only [classifyEmail]
  rw [if_pos hOld]

/-- A stale delivery record that matches the delivery category by pre-tagged
type, keyword and sender. -/
def oldEmail : EmailData :=
  ⟨"1", "Your Amazon order has been delivered", "noreply@amazon.com", 0,
    "Your order has been delivered.", "delivery"⟩

def predD : EmailPredicate := ⟨.delivery, 30, none, none⟩

/-- Witness for C7: `oldEmail` matches the delivery category in every way,
yet is classified false at a "now" 100 days past its timestamp. -/
theorem classify_age_filter_dominates_witness :
    oldEmail.date < (8640000000 : ℚ) - predD.maxAge * (24 * 60 * 60 * 1000) ∧
    isDeliveryEmail oldEmail = true ∧
    classifyEmail predD 8640000000 oldEmail = false :=
  ⟨by norm_num [oldEmail, predD], by decide,
    classify_age_filter_dominates predD 8640000000 oldEmail
      (by norm_num [oldEmail, predD])⟩

/-- Claim C9: redaction is field-level and independent — each output record
keeps its subject exactly when `showSubjectInfo`, its sender exactly when
`showSenderInfo`, and its body exactly when bodies are not redacted, the
other fields being the fixed marker; the output has one record per input
record. -/
theorem applyRedaction_field_level
    (policy : Policy) (emails : List EmailData) (i : ℕ)
    (h : i < emails.length)
    (h2 : i < (applyRedaction emails policy).length) :
    ((applyRedaction emails policy).get ⟨i, h2⟩).subject =
      (if policy.showSubjectInfo = true then (emails.get ⟨i, h⟩).subject
       else "[REDACTED]") ∧
    ((applyRedaction emails policy).get ⟨i, h2⟩).sender =
      (if policy.showSenderInfo = true then (emails.get ⟨i, h⟩).sender
       else "[REDACTED]") ∧
    ((applyRedaction emails policy).get ⟨i, h2⟩).body =
      (if policy.redactEmailBodies = true then "[REDACTED]"
       else (emails.get ⟨i, h⟩).body) ∧
    (applyRedaction emails policy).length = emails.length := by
  refine ⟨?_, ?_, ?_, by simp [applyRedaction]⟩ <;>
    simp [applyRedaction]

/-- Scenario E policy: sender hidden, bodies redacted, subject shown. -/
def polE : Policy :=
  { pol1 with
    showSenderInfo := false
    showSubjectInfo := true
    redactEmailBodies := true }

/-- Scenario E record set: three records. -/
def emailsE : List EmailData :=
  [⟨"1", "Sub1", "alice@example.com", 0, "Body1", "general"⟩,
   ⟨"2", "Sub2", "bob@example.com", 0, "Body2", "general"⟩,
   ⟨"3", "Sub3", "carol@example.com", 0, "Body3", "general"⟩]

/-- Witness for C9 (spec Scenario E): under `polE` the first output record
keeps its original subject while sender and body are the redaction marker. -/
theorem applyRedaction_field_level_witness :
    ((applyRedaction emailsE polE).get ⟨0, by decide⟩).subject = "Sub1" ∧
    ((applyRedaction emailsE polE).get ⟨0, by decide⟩).sender = "[REDACTED]" ∧
    ((applyRedaction emailsE polE).get ⟨0, by decide⟩).body = "[REDACTED]" ∧
    (applyRedaction emailsE polE).length = emailsE.length := by
  have hthm := applyRedaction_field_level polE emailsE 0 (by decide) (by decide)
  refine ⟨?_, ?_, ?_, hthm.2.2.2⟩
  · rw [hthm.1]
    rfl
  · rw [hthm.2.1]
    rfl
  · rw [hthm.2.2.1]
    rfl

end DataGuard
